import Mathlib

/-!
Verification of the constrained option-resolution engine of the
create-supertokens-app CLI: the option mapper (mapOptionsToChoices) and the
choice filter engine (STRATEGIES registry and filterChoices composition),
shallowly embedded from src/lib/ts/filterChoicesUtils.ts and the utility
module holding mapOptionsToChoices.  Asynchronous functions that may reject
are embedded as functions into Except String; awaiting an already computed
value is the identity and is not modelled.
-/

/-- The generic prompt-ready choice shape: PromptListChoice from types.ts,
a record with a display name and an internal value. -/
structure PromptListChoice where
  name : String
  value : String
deriving DecidableEq, Repr

/-- One selectable answer to a configuration question: QuestionOption from
types.ts, with a display label, an internal value and an optional visibility
field (bool or undefined in TypeScript, modelled as Option Bool). -/
structure QuestionOption where
  displayName : String
  value : String
  shouldDisplay : Option Bool
deriving DecidableEq, Repr

/-- Accumulated user answers read by the filter strategies.  The engine only
reads the uibuild and frontend keys; each may be absent. -/
structure UserFlags where
  uibuild : Option String
  frontend : Option String
deriving DecidableEq, Repr

/-- Modelled from the spec: the UIBuildType enum member PRE_BUILT from
types.ts (the file is not part of the provided sources); the spec and its
examples identify the pre-built UI build mode with the flag value
"pre-built". -/
def UIBuildType.PRE_BUILT : String := "pre-built"

/-- The closed set of strategy identifiers FILTER_CHOICES_STRATEGY from
types.ts, plus a constructor for an arbitrary runtime identifier that is not
a registered key: at runtime the identifiers are plain JavaScript values, and
filterChoices explicitly guards the registry lookup with
STRATEGIES[filter] being defined, so unregistered identifiers are
representable inputs. -/
inductive FILTER_CHOICES_STRATEGY where
  | UI_BUILD_FRONTEND
  | UI_BUILD_RECIPE
  | unknownTag (tag : String)
deriving DecidableEq, Repr

/-- The fixed allow-list of frontends that ship custom-UI boilerplate, from
the UI_BUILD_FRONTEND strategy body. -/
def SUPPORTED_FRONTENDS_CUSTOM_UI : List String := ["react"]

/-- The fixed allow-list of recipes that support custom UI, from the
UI_BUILD_RECIPE strategy body. -/
def SUPPORTED_RECIPES_CUSTOM_UI : List String :=
  ["emailpassword", "thirdpartyemailpassword"]

/-- The UI_BUILD_FRONTEND strategy from the STRATEGIES object: if the uibuild
flag equals PRE_BUILT the choices are returned unchanged, otherwise the
choices are narrowed to those whose value is in
SUPPORTED_FRONTENDS_CUSTOM_UI. -/
def uiBuildFrontendStrategy (choices : List PromptListChoice)
    (flags : UserFlags) : Except String (List PromptListChoice) :=
  if flags.uibuild = some UIBuildType.PRE_BUILT then
    Except.ok choices
  else
    Except.ok (choices.filter
      (fun choice => SUPPORTED_FRONTENDS_CUSTOM_UI.contains choice.value))

/-- The UI_BUILD_RECIPE strategy from the STRATEGIES object: if the uibuild
flag equals PRE_BUILT the choices are returned unchanged; otherwise, if the
frontend flag is not "react", the promise rejects with the
unsatisfiable-configuration error; otherwise the choices are narrowed to
those whose value is in SUPPORTED_RECIPES_CUSTOM_UI. -/
def uiBuildRecipeStrategy (choices : List PromptListChoice)
    (flags : UserFlags) : Except String (List PromptListChoice) :=
  if flags.uibuild = some UIBuildType.PRE_BUILT then
    Except.ok choices
  else if flags.frontend ≠ some "react" then
    Except.error "No Recipes Available for the selected UI Build Type and Frontend"
  else
    Except.ok (choices.filter
      (fun choice => SUPPORTED_RECIPES_CUSTOM_UI.contains choice.value))

/-- The STRATEGIES registry: the mapping from strategy identifier to its
filter function.  The runtime lookup STRATEGIES[filter] yields undefined for
an unregistered identifier, modelled as none. -/
def STRATEGIES : FILTER_CHOICES_STRATEGY →
    Option (List PromptListChoice → UserFlags →
      Except String (List PromptListChoice))
  | FILTER_CHOICES_STRATEGY.UI_BUILD_FRONTEND => some uiBuildFrontendStrategy
  | FILTER_CHOICES_STRATEGY.UI_BUILD_RECIPE => some uiBuildRecipeStrategy
  | FILTER_CHOICES_STRATEGY.unknownTag _ => none

/-- The strategy parameter of filterChoices: a tagged union over absent,
a single identifier, an array of identifiers and an ad-hoc custom filter
function, matching the dynamic disambiguation in the source (falsiness
check, Array.isArray, typeof function). -/
inductive StrategyArg where
  | absent
  | single (s : FILTER_CHOICES_STRATEGY)
  | chain (ss : List FILTER_CHOICES_STRATEGY)
  | custom (f : List PromptListChoice → Except String (List PromptListChoice))

/-- The for-loop of filterChoices over an array of identifiers: each
identifier whose registry entry is undefined is skipped with continue;
otherwise its strategy is awaited on the running choices, a rejection
propagating out of the loop. -/
def applyStrategies (flags : UserFlags) :
    List FILTER_CHOICES_STRATEGY → List PromptListChoice →
      Except String (List PromptListChoice)
  | [], choices => Except.ok choices
  | s :: rest, choices =>
    match STRATEGIES s with
    | none => applyStrategies flags rest choices
    | some f =>
      match f choices flags with
      | Except.error e => Except.error e
      | Except.ok next => applyStrategies flags rest next

/-- The filterChoices composition entry point: with no strategy or an empty
array the resolved choices are returned unchanged; a custom function is
invoked directly on the choices; a single identifier is wrapped into a
one-element array; an array of identifiers is folded left to right by the
loop. -/
def filterChoices (flags : UserFlags) (choices : List PromptListChoice)
    (strategy : StrategyArg) : Except String (List PromptListChoice) :=
  match strategy with
  | StrategyArg.absent => Except.ok choices
  | StrategyArg.custom f => f choices
  | StrategyArg.single s => applyStrategies flags [s] choices
  | StrategyArg.chain ss =>
    if ss.isEmpty then Except.ok choices
    else applyStrategies flags ss choices

/-- The option mapper: filters out every option whose shouldDisplay is
strictly equal to false and maps each survivor to a name/value choice. -/
def mapOptionsToChoices (options : List QuestionOption) :
    List PromptListChoice :=
  (options.filter (fun i => !(i.shouldDisplay == some false))).map
    (fun option => ⟨option.displayName, option.value⟩)

/-- Modelled from the spec, for comparison with mapOptionsToChoices: one
choice with name = displayName and value = value for each option whose
shouldDisplay is not false, in input order, and nothing else. -/
def mapOptionsToChoicesSpec : List QuestionOption → List PromptListChoice
  | [] => []
  | o :: rest =>
    if o.shouldDisplay = some false then mapOptionsToChoicesSpec rest
    else ⟨o.displayName, o.value⟩ :: mapOptionsToChoicesSpec rest

deriving instance DecidableEq for Except

/-- The loop of filterChoices distributes over list append: running a
concatenated identifier array equals running the first part and feeding its
output (or propagating its rejection) into the second part. -/
theorem applyStrategies_append (flags : UserFlags)
    (l1 l2 : List FILTER_CHOICES_STRATEGY) (choices : List PromptListChoice) :
    applyStrategies flags (l1 ++ l2) choices =
      (applyStrategies flags l1 choices).bind
        (fun mid => applyStrategies flags l2 mid) := by
  induction l1 generalizing choices with
  | nil => rfl
  | cons s rest ih =>
    cases hS : STRATEGIES s with
    | none =>
      simp only [List.cons_append, applyStrategies, hS]
      exact ih choices
    | some f =>
      cases hr : f choices flags with
      | error e =>
        simp only [List.cons_append, applyStrategies, hS, hr, Except.bind]
      | ok next =>
        simp only [List.cons_append, applyStrategies, hS, hr, Except.bind]
        exact ih next

/-- filterChoices on a chain argument is exactly the identifier loop: the
empty-array early return coincides with the loop on the empty list. -/
theorem filterChoices_chain_eq (flags : UserFlags)
    (choices : List PromptListChoice) (ss : List FILTER_CHOICES_STRATEGY) :
    filterChoices flags choices (StrategyArg.chain ss) =
      applyStrategies flags ss choices := by
  cases ss with
  | nil => rfl
  | cons s rest => rfl

/-- Dropping the identifiers whose registry lookup is undefined does not
change the result of the identifier loop. -/
theorem applyStrategies_filter_registered (flags : UserFlags)
    (ss : List FILTER_CHOICES_STRATEGY) (choices : List PromptListChoice) :
    applyStrategies flags ss choices =
      applyStrategies flags
        (ss.filter (fun s => (STRATEGIES s).isSome)) choices := by
  induction ss generalizing choices with
  | nil => rfl
  | cons s rest ih =>
    rw [List.filter_cons]
    cases h : STRATEGIES s with
    | none =>
      simp only [h, Option.isSome_none, Bool.false_eq_true, if_false]
      simp only [applyStrategies, h]
      exact ih choices
    | some f =>
      simp only [h, Option.isSome_some, if_true]
      simp only [applyStrategies, h]
      cases f choices flags with
      | error e => rfl
      | ok next => exact ih next

/-- A successful run of the frontend strategy returns a sublist of its
input. -/
theorem uiBuildFrontendStrategy_sublist (choices : List PromptListChoice)
    (flags : UserFlags) (r : List PromptListChoice)
    (h : uiBuildFrontendStrategy choices flags = Except.ok r) :
    r.Sublist choices := by
  unfold uiBuildFrontendStrategy at h
  split at h
  · cases h
    exact List.Sublist.refl _
  · cases h
    exact List.filter_sublist _

/-- A successful run of the recipe strategy returns a sublist of its
input. -/
theorem uiBuildRecipeStrategy_sublist (choices : List PromptListChoice)
    (flags : UserFlags) (r : List PromptListChoice)
    (h : uiBuildRecipeStrategy choices flags = Except.ok r) :
    r.Sublist choices := by
  unfold uiBuildRecipeStrategy at h
  split at h
  · cases h
    exact List.Sublist.refl _
  · split at h
    · cases h
    · cases h
      exact List.filter_sublist _

/-- Every registered strategy, on success, returns a sublist of its
input. -/
theorem STRATEGIES_ok_sublist (s : FILTER_CHOICES_STRATEGY)
    (f : List PromptListChoice → UserFlags →
      Except String (List PromptListChoice))
    (hf : STRATEGIES s = some f) (choices : List PromptListChoice)
    (flags : UserFlags) (r : List PromptListChoice)
    (hr : f choices flags = Except.ok r) : r.Sublist choices := by
  cases s with
  | UI_BUILD_FRONTEND =>
    have hfe : f = uiBuildFrontendStrategy := by
      have := hf
      simp only [STRATEGIES, Option.some.injEq] at this
      exact this.symm
    subst hfe
    exact uiBuildFrontendStrategy_sublist choices flags r hr
  | UI_BUILD_RECIPE =>
    have hfe : f = uiBuildRecipeStrategy := by
      have := hf
      simp only [STRATEGIES, Option.some.injEq] at this
      exact this.symm
    subst hfe
    exact uiBuildRecipeStrategy_sublist choices flags r hr
  | unknownTag tag =>
    simp [STRATEGIES] at hf

/-- A successful run of the identifier loop returns a sublist of its
input. -/
theorem applyStrategies_ok_sublist (flags : UserFlags)
    (ss : List FILTER_CHOICES_STRATEGY) :
    ∀ choices r, applyStrategies flags ss choices = Except.ok r →
      r.Sublist choices := by
  induction ss with
  | nil =>
    intro choices r h
    cases h
    exact List.Sublist.refl _
  | cons s rest ih =>
    intro choices r h
    cases hs : STRATEGIES s with
    | none =>
      simp only [applyStrategies, hs] at h
      exact ih choices r h
    | some f =>
      cases hr : f choices flags with
      | error e =>
        simp only [applyStrategies, hs, hr] at h
        exact absurd h (by simp)
      | ok next =>
        simp only [applyStrategies, hs, hr] at h
        exact (ih next r h).trans
          (STRATEGIES_ok_sublist s f hs choices flags next hr)

/-- C1: the recipe/frontend compatibility strategy rejects with the
unsatisfiable-configuration error "No Recipes Available for the selected UI
Build Type and Frontend" if and only if the uibuild flag is not "pre-built"
and the frontend flag is not "react"; in every other case it returns a
choice list without raising. -/
theorem uiBuildRecipeStrategy_error_iff (choices : List PromptListChoice)
    (flags : UserFlags) :
    (uiBuildRecipeStrategy choices flags =
        Except.error
          "No Recipes Available for the selected UI Build Type and Frontend" ↔
      flags.uibuild ≠ some UIBuildType.PRE_BUILT ∧
        flags.frontend ≠ some "react") ∧
    (uiBuildRecipeStrategy choices flags =
        Except.error
          "No Recipes Available for the selected UI Build Type and Frontend" ∨
      ∃ r, uiBuildRecipeStrategy choices flags = Except.ok r) := by
  unfold uiBuildRecipeStrategy
  by_cases h1 : flags.uibuild = some UIBuildType.PRE_BUILT <;>
    by_cases h2 : flags.frontend = some "react" <;>
      simp [h1, h2]

/-- C2: mapOptionsToChoices emits, in input order, exactly one choice with
name = displayName and value = value for each option whose shouldDisplay is
not false (absent counts as included) and nothing else, its output length is
the count of such options, and the empty input yields the empty output. -/
theorem mapOptionsToChoices_characterization
    (options : List QuestionOption) :
    mapOptionsToChoices options = mapOptionsToChoicesSpec options ∧
    (mapOptionsToChoices options).length =
      options.countP (fun o => !(o.shouldDisplay == some false)) ∧
    mapOptionsToChoices ([] : List QuestionOption) = [] := by
  refine ⟨?_, ?_, rfl⟩
  · induction options with
    | nil => rfl
    | cons o rest ih =>
      by_cases h : o.shouldDisplay = some false <;>
        simpa [mapOptionsToChoices, mapOptionsToChoicesSpec,
          List.filter_cons, h] using ih
  · rw [mapOptionsToChoices, List.length_map]
    exact (List.countP_eq_length_filter _ _).symm

/-- C3: the UI-build/frontend compatibility strategy never rejects, returns
the input unchanged when the uibuild flag is "pre-built", otherwise keeps
exactly the input choices whose value is "react" (the single entry of the
allow-list); on the concrete custom/react example it keeps only the react
entry. -/
theorem uiBuildFrontendStrategy_characterization
    (choices : List PromptListChoice) (flags : UserFlags) :
    (∃ r, uiBuildFrontendStrategy choices flags = Except.ok r) ∧
    uiBuildFrontendStrategy choices flags =
      Except.ok
        (if flags.uibuild = some UIBuildType.PRE_BUILT then choices
         else choices.filter (fun c => c.value == "react")) ∧
    uiBuildFrontendStrategy
        [⟨"React", "react"⟩, ⟨"Vue", "vue"⟩]
        ⟨some "custom", some "react"⟩ =
      Except.ok [⟨"React", "react"⟩] := by
  refine ⟨?_, ?_, by decide⟩
  · unfold uiBuildFrontendStrategy
    split
    · exact ⟨choices, rfl⟩
    · exact ⟨_, rfl⟩
  · unfold uiBuildFrontendStrategy
    split
    · rfl
    · congr 1
      apply List.filter_congr
      intro a _
      simp [SUPPORTED_FRONTENDS_CUSTOM_UI, beq_eq_decide]

/-- C4: the recipe strategy returns the input unchanged when the uibuild
flag is "pre-built"; when uibuild is not "pre-built" and frontend is
"react" it keeps exactly the input choices whose value is in the recipe
allow-list; on the concrete example it keeps emailpassword and
thirdpartyemailpassword and drops passwordless. -/
theorem uiBuildRecipeStrategy_characterization
    (choices : List PromptListChoice) (flags : UserFlags) :
    (flags.uibuild = some UIBuildType.PRE_BUILT →
      uiBuildRecipeStrategy choices flags = Except.ok choices) ∧
    (flags.uibuild ≠ some UIBuildType.PRE_BUILT →
      flags.frontend = some "react" →
      uiBuildRecipeStrategy choices flags =
        Except.ok (choices.filter (fun c =>
          c.value == "emailpassword" ||
            c.value == "thirdpartyemailpassword"))) ∧
    uiBuildRecipeStrategy
        [⟨"EP", "emailpassword"⟩, ⟨"TPEP", "thirdpartyemailpassword"⟩,
          ⟨"PWL", "passwordless"⟩]
        ⟨some "custom", some "react"⟩ =
      Except.ok
        [⟨"EP", "emailpassword"⟩,
          ⟨"TPEP", "thirdpartyemailpassword"⟩] := by
  refine ⟨?_, ?_, by decide⟩
  · intro h
    simp [uiBuildRecipeStrategy, h]
  · intro h1 h2
    rw [uiBuildRecipeStrategy, if_neg h1, if_neg (by simp [h2])]
    congr 1
    apply List.filter_congr
    intro a _
    simp only [SUPPORTED_RECIPES_CUSTOM_UI, List.contains_cons,
      List.contains_nil, Bool.or_false]

/-- Witness for C4: both hypothetical branches of the theorem instantiated
at concrete inputs and evaluated. -/
theorem uiBuildRecipeStrategy_characterization_witness :
    uiBuildRecipeStrategy [⟨"EP", "emailpassword"⟩]
        ⟨some "pre-built", none⟩ = Except.ok [⟨"EP", "emailpassword"⟩] ∧
    uiBuildRecipeStrategy [⟨"PWL", "passwordless"⟩]
        ⟨some "custom", some "react"⟩ = Except.ok [] := by
  constructor
  · exact (uiBuildRecipeStrategy_characterization _ _).1 rfl
  · exact ((uiBuildRecipeStrategy_characterization
      [⟨"PWL", "passwordless"⟩] ⟨some "custom", some "react"⟩).2.1
        (by decide) rfl).trans (by decide)

/-- C5: filterChoices with the strategy argument absent returns the choices
unchanged, with an empty strategy array it also returns the choices
unchanged, and the two calls behave identically. -/
theorem filterChoices_identity (flags : UserFlags)
    (choices : List PromptListChoice) :
    filterChoices flags choices StrategyArg.absent = Except.ok choices ∧
    filterChoices flags choices (StrategyArg.chain []) = Except.ok choices ∧
    filterChoices flags choices (StrategyArg.chain []) =
      filterChoices flags choices StrategyArg.absent :=
  ⟨rfl, rfl, rfl⟩

/-- C6: chaining two strategy identifiers applies them strictly left to
right, the second stage consuming the first stage output (via the bind of
the rejection-aware result), and a single identifier behaves exactly as its
one-element chain. -/
theorem filterChoices_sequential (flags : UserFlags)
    (choices : List PromptListChoice)
    (s1 s2 : FILTER_CHOICES_STRATEGY) :
    (filterChoices flags choices (StrategyArg.chain [s1, s2]) =
      (filterChoices flags choices (StrategyArg.chain [s1])).bind
        (fun mid => filterChoices flags mid (StrategyArg.chain [s2]))) ∧
    ∀ s, filterChoices flags choices (StrategyArg.single s) =
      filterChoices flags choices (StrategyArg.chain [s]) := by
  constructor
  · exact applyStrategies_append flags [s1] [s2] choices
  · intro s
    rfl

/-- C7: identifiers without a registry entry are silently skipped: running a
chain equals running only its registered identifiers in their original
order, and a chain holding one unregistered identifier returns the input
unchanged. -/
theorem filterChoices_unregistered_noop (flags : UserFlags)
    (choices : List PromptListChoice)
    (ss : List FILTER_CHOICES_STRATEGY) :
    (filterChoices flags choices (StrategyArg.chain ss) =
      filterChoices flags choices
        (StrategyArg.chain (ss.filter (fun s => (STRATEGIES s).isSome)))) ∧
    filterChoices flags choices
        (StrategyArg.chain [FILTER_CHOICES_STRATEGY.unknownTag "someTag"]) =
      Except.ok choices := by
  constructor
  · rw [filterChoices_chain_eq, filterChoices_chain_eq]
    exact applyStrategies_filter_registered flags ss choices
  · rfl

/-- C8: a custom filter function passed as the strategy argument is invoked
directly on the choices, bypassing the registry and without receiving the
flags, and an error it raises propagates to the caller unchanged. -/
theorem filterChoices_custom (flags : UserFlags)
    (choices : List PromptListChoice)
    (f : List PromptListChoice → Except String (List PromptListChoice)) :
    filterChoices flags choices (StrategyArg.custom f) = f choices ∧
    ∀ e, f choices = Except.error e →
      filterChoices flags choices (StrategyArg.custom f) =
        Except.error e :=
  ⟨rfl, fun _ he => he⟩

/-- Witness for C8: a concrete always-failing custom function propagates
its error through filterChoices unchanged. -/
theorem filterChoices_custom_witness :
    filterChoices ⟨none, none⟩ []
        (StrategyArg.custom (fun _ => Except.error "boom")) =
      Except.error "boom" :=
  (filterChoices_custom ⟨none, none⟩ []
    (fun _ => Except.error "boom")).2 "boom" rfl

/-- C9: each registered strategy, whenever it succeeds, returns a subset by
value of its input choice list, and consequently filterChoices with any
chain of registry identifiers also returns a subset by value of its
input. -/
theorem filterChoices_subset_by_value (flags : UserFlags)
    (choices : List PromptListChoice) :
    (∀ s f r, STRATEGIES s = some f →
      f choices flags = Except.ok r →
      ∀ c ∈ r, c.value ∈ choices.map PromptListChoice.value) ∧
    (∀ ss r, filterChoices flags choices (StrategyArg.chain ss) =
        Except.ok r →
      ∀ c ∈ r, c.value ∈ choices.map PromptListChoice.value) := by
  constructor
  · intro s f r hf hr c hc
    exact List.mem_map_of_mem _
      ((STRATEGIES_ok_sublist s f hf choices flags r hr).subset hc)
  · intro ss r hr c hc
    rw [filterChoices_chain_eq] at hr
    exact List.mem_map_of_mem _
      ((applyStrategies_ok_sublist flags ss choices r hr).subset hc)

/-- Witness for C9: on a concrete custom-UI input the surviving react entry
has its value among the input values. -/
theorem filterChoices_subset_by_value_witness :
    "react" ∈
      ([⟨"React", "react"⟩, ⟨"Vue", "vue"⟩] :
        List PromptListChoice).map PromptListChoice.value :=
  (filterChoices_subset_by_value ⟨some "custom", none⟩
    [⟨"React", "react"⟩, ⟨"Vue", "vue"⟩]).2
    [FILTER_CHOICES_STRATEGY.UI_BUILD_FRONTEND] [⟨"React", "react"⟩]
    (by decide) ⟨"React", "react"⟩ (by decide)

/-- C10: each registered strategy, whenever it succeeds, returns a
subsequence of its input (same relative order, no duplication), and
consequently filterChoices with any chain of registry identifiers returns a
subsequence of its input. -/
theorem filterChoices_sublist_of_input (flags : UserFlags)
    (choices : List PromptListChoice) :
    (∀ s f r, STRATEGIES s = some f →
      f choices flags = Except.ok r → r.Sublist choices) ∧
    (∀ ss r, filterChoices flags choices (StrategyArg.chain ss) =
        Except.ok r → r.Sublist choices) := by
  constructor
  · intro s f r hf hr
    exact STRATEGIES_ok_sublist s f hf choices flags r hr
  · intro ss r hr
    rw [filterChoices_chain_eq] at hr
    exact applyStrategies_ok_sublist flags ss choices r hr

/-- Witness for C10: on a concrete custom-UI input the chained frontend
strategy output is a subsequence of the input. -/
theorem filterChoices_sublist_of_input_witness :
    ([⟨"React", "react"⟩] : List PromptListChoice).Sublist
      [⟨"React", "react"⟩, ⟨"Vue", "vue"⟩] :=
  (filterChoices_sublist_of_input ⟨some "custom", none⟩
    [⟨"React", "react"⟩, ⟨"Vue", "vue"⟩]).2
    [FILTER_CHOICES_STRATEGY.UI_BUILD_FRONTEND] [⟨"React", "react"⟩]
    (by decide)
